import Mathlib

/-!
Shallow embedding of the event/listener dispatch core of `atri_qq`
(sources: `src/event/mod.rs`, `src/event/listener.rs`).

Shared atomic booleans (`Arc<AtomicBool>`) are modelled by a flag store:
a list of booleans indexed by allocation order.  An `Arc<AtomicBool>`
value is the index (address) of its cell; cloning an `Arc` copies the
address, so two clones read and write the same cell.  `AtomicBool::new(false)`
is an allocation of a fresh cell holding `false`.
-/

namespace Atri

/-- The store of all allocated atomic booleans.  `flags[a]` is the current
value of the cell at address `a`; addresses `≥ flags.length` are unallocated. -/
structure SysState where
  flags : List Bool
  deriving DecidableEq, Repr

/-- Read the atomic boolean at address `a` (an unallocated address reads `false`,
matching `AtomicBool::new(false)` initialisation of every cell). -/
def SysState.readFlag (s : SysState) (a : Nat) : Bool :=
  s.flags.getD a false

/-- `swap(true, _)` / store of `true` into the cell at address `a`. -/
def SysState.setFlagTrue (s : SysState) (a : Nat) : SysState :=
  { s with flags := s.flags.set a true }

/-- `AtomicBool::new(false)` wrapped in an `Arc`: allocate a fresh cell holding
`false` and return its address. -/
def SysState.alloc (s : SysState) : SysState × Nat :=
  ({ s with flags := s.flags ++ [false] }, s.flags.length)

/-- `EventInner<T>` from `src/event/mod.rs`: a shared interception flag
(`intercepted: Arc<AtomicBool>`, modelled by its address) and a shared
immutable payload (`event: Arc<T>`). -/
structure EventInner (T : Type) where
  intercepted : Nat
  event : T
  deriving DecidableEq, Repr

namespace EventInner

/-- `EventInner::new`: fresh flag initialised to `false`, payload stored. -/
def new {T : Type} (ev : T) (s : SysState) : EventInner T × SysState :=
  let (s1, a) := s.alloc
  ({ intercepted := a, event := ev }, s1)

/-- `EventInner::intercept`: `self.intercepted.swap(true, Ordering::Release)`. -/
def intercept {T : Type} (e : EventInner T) (s : SysState) : SysState :=
  s.setFlagTrue e.intercepted

/-- `EventInner::is_intercepted`: `self.intercepted.load(Ordering::Relaxed)`. -/
def is_intercepted {T : Type} (e : EventInner T) (s : SysState) : Bool :=
  s.readFlag e.intercepted

/-- `impl<T> Clone for EventInner<T>`: clones both `Arc`s, i.e. copies the
flag address and the payload handle. -/
def clone {T : Type} (e : EventInner T) : EventInner T :=
  { intercepted := e.intercepted, event := e.event }

end EventInner

/-! Payload types of the event variants.  `Group`, `GroupMessage`,
`FriendMessage`, `Bot` and `QEvent` belong to collaborators outside this
core (`ricq`, the contact model); they are modelled with exactly the fields
the dispatch core reads: `Group::id`, `Group::bot`, `GroupMessage::from_uin`. -/

structure Bot where
  id : Int
  deriving DecidableEq, Repr

structure Group where
  id : Int
  bot : Bot
  deriving DecidableEq, Repr

structure GroupMessage where
  from_uin : Int
  deriving DecidableEq, Repr

structure FriendMessage where
  from_uin : Int
  deriving DecidableEq, Repr

/-- Opaque raw protocol event (`ricq::handler::QEvent`). -/
structure QEvent where
  raw : Nat
  deriving DecidableEq, Repr

namespace imp

/-- `imp::GroupMessageEvent` payload. -/
structure GroupMessageEvent where
  group : Group
  message : GroupMessage
  deriving DecidableEq, Repr

/-- `imp::FriendMessageEvent` payload. -/
structure FriendMessageEvent where
  message : FriendMessage
  deriving DecidableEq, Repr

/-- `imp::BotOnlineEvent` payload. -/
structure BotOnlineEvent where
  bot : Bot
  deriving DecidableEq, Repr

end imp

/-- `pub type GroupMessageEvent = EventInner<imp::GroupMessageEvent>`. -/
abbrev GroupMessageEvent := EventInner imp.GroupMessageEvent

/-- `pub type FriendMessageEvent = EventInner<imp::FriendMessageEvent>`. -/
abbrev FriendMessageEvent := EventInner imp.FriendMessageEvent

/-- `pub type BotOnlineEvent = EventInner<imp::BotOnlineEvent>`. -/
abbrev BotOnlineEvent := EventInner imp.BotOnlineEvent

/-- `enum Event` from `src/event/mod.rs`. -/
inductive Event where
  | BotOnlineEvent (e : BotOnlineEvent)
  | GroupMessageEvent (e : GroupMessageEvent)
  | FriendMessageEvent (e : FriendMessageEvent)
  | Unknown (e : EventInner QEvent)
  deriving DecidableEq, Repr

namespace Event

/-- Generated by `event_fun_impl!`: exhaustive match forwarding to
`EventInner::intercept`. -/
def intercept (e : Event) (s : SysState) : SysState :=
  match e with
  | .BotOnlineEvent e => e.intercept s
  | .GroupMessageEvent e => e.intercept s
  | .FriendMessageEvent e => e.intercept s
  | .Unknown e => e.intercept s

/-- Generated by `event_fun_impl!`: exhaustive match forwarding to
`EventInner::is_intercepted`. -/
def is_intercepted (e : Event) (s : SysState) : Bool :=
  match e with
  | .BotOnlineEvent e => e.is_intercepted s
  | .GroupMessageEvent e => e.is_intercepted s
  | .FriendMessageEvent e => e.is_intercepted s
  | .Unknown e => e.is_intercepted s

end Event

/-- `Managed::from_value`: a type-erased owned handle.  One constructor per
payload type that `Event::into_ffi` erases. -/
inductive Managed where
  | botOnline (e : BotOnlineEvent)
  | groupMessage (e : GroupMessageEvent)
  | friendMessage (e : FriendMessageEvent)
  | unknownEv (e : EventInner QEvent)
  deriving DecidableEq, Repr

/-- `atri_ffi::ffi::FFIEvent`: the envelope `(discriminant, managed handle)`
built by `FFIEvent::from(t, e)`. -/
structure FFIEvent where
  t : Nat
  event : Managed
  deriving DecidableEq, Repr

/-- `Event::into_ffi` from `src/event/mod.rs` lines 28-37. -/
def Event.into_ffi (e : Event) : FFIEvent :=
  match e with
  | .BotOnlineEvent e => { t := 0, event := .botOnline e }
  | .GroupMessageEvent e => { t := 1, event := .groupMessage e }
  | .FriendMessageEvent e => { t := 2, event := .friendMessage e }
  | .Unknown e => { t := 255, event := .unknownEv e }

/-- Whether two `Event` values are built from the same variant. -/
def Event.sameVariant : Event → Event → Bool
  | .BotOnlineEvent _, .BotOnlineEvent _ => true
  | .GroupMessageEvent _, .GroupMessageEvent _ => true
  | .FriendMessageEvent _, .FriendMessageEvent _ => true
  | .Unknown _, .Unknown _ => true
  | _, _ => false

/-- `FromEvent for GroupMessageEvent` (`src/event/mod.rs` lines 196-204). -/
def GroupMessageEvent.from_event (e : Event) : Option GroupMessageEvent :=
  match e with
  | .GroupMessageEvent e => some e
  | _ => none

/-- `FromEvent for FriendMessageEvent` (`src/event/mod.rs` lines 210-218). -/
def FriendMessageEvent.from_event (e : Event) : Option FriendMessageEvent :=
  match e with
  | .FriendMessageEvent e => some e
  | _ => none

/-- `FromEvent for Event`: always succeeds. -/
def Event.from_event (e : Event) : Option Event :=
  some e

/-! The listener layer (`src/event/listener.rs`).  A handler
`Fn(Event) -> Future<bool>` is modelled as a state transformer
`Event → SysState → SysState × Bool`: running the future may mutate shared
flags (e.g. call `intercept`) and yields the continuation boolean. -/

/-- `enum Priority` with its explicit discriminants `Top = 0 .. Base = 4`. -/
inductive Priority where
  | Top
  | High
  | Middle
  | Low
  | Base
  deriving DecidableEq, Repr

/-- The integer discriminant of a `Priority` value. -/
def Priority.toNat : Priority → Nat
  | .Top => 0
  | .High => 1
  | .Middle => 2
  | .Low => 3
  | .Base => 4

/-- `impl Default for Priority`. -/
def Priority.default : Priority := .Middle

/-- A handler: the erased `Fn(Event) -> Pin<Box<dyn Future<Output = bool>>>`. -/
abbrev Handler := Event → SysState → SysState × Bool

/-- `struct Listener` from `src/event/listener.rs`.  `concurrent_mutex:
Option<Mutex<()>>` is modelled as `Option Unit`; `closed: Arc<AtomicBool>`
as a flag address. -/
structure Listener where
  name : String
  concurrent_mutex : Option Unit
  handler : Handler
  closed : Nat
  priority : Priority

/-- `struct ListenerBuilder`. -/
structure ListenerBuilder where
  name : Option String
  concurrent : Bool
  handler : Handler
  closed : Nat
  priority : Priority

/-- `struct ListenerGuard`: shared name and shared closed-flag address. -/
structure ListenerGuard where
  name : String
  closed : Nat
  deriving DecidableEq, Repr

namespace Listener

/-- `Listener::new` (private constructor behind every entry point): boxes the
handler and builds a `ListenerBuilder` with `name: None`, `concurrent: true`,
a freshly allocated `closed: AtomicBool::new(false)`, and
`priority: Priority::Middle`. -/
def new (handler : Handler) (s : SysState) : ListenerBuilder × SysState :=
  let (s1, a) := s.alloc
  ({ name := none
     concurrent := true
     handler := handler
     closed := a
     priority := .Middle }, s1)

/-- `Listener::new_always`: adapts a unit handler, continuation always `true`. -/
def new_always (handler : Event → SysState → SysState) (s : SysState) :
    ListenerBuilder × SysState :=
  new (fun e st => (handler e st, true)) s

/-- `Listener::listening_on::<E>`: erases a typed handler.  The `FromEvent`
bound is passed explicitly as the conversion function `fromEv`; when it yields
`none` the erased handler is `bool_true()` (no user code runs, result `true`). -/
def listening_on {E : Type} (fromEv : Event → Option E)
    (handler : E → SysState → SysState × Bool) (s : SysState) :
    ListenerBuilder × SysState :=
  new (fun e st =>
    match fromEv e with
    | some e => handler e st
    | none => (st, true)) s

/-- `Listener::listening_on_always::<E>`: typed handler with no return value;
non-matching events run `nop()`, continuation is always `true`. -/
def listening_on_always {E : Type} (fromEv : Event → Option E)
    (handler : E → SysState → SysState) (s : SysState) :
    ListenerBuilder × SysState :=
  new_always (fun e st =>
    match fromEv e with
    | some e => handler e st
    | none => st) s

end Listener

namespace ListenerBuilder

/-- `ListenerBuilder::start`: names the listener
(`"Unnamed-Listener"` when unnamed), materialises the mutex from the
`concurrent` flag, hands the `Listener` to the worker for registration, and
returns the guard sharing the name and closed flag.  The model returns the
constructed `Listener` alongside the guard. -/
def start (b : ListenerBuilder) : Listener × ListenerGuard :=
  let name := b.name.getD "Unnamed-Listener"
  ({ name := name
     concurrent_mutex := if b.concurrent then none else some ()
     handler := b.handler
     closed := b.closed
     priority := b.priority },
   { name := name, closed := b.closed })

/-- `ListenerBuilder::with_name`. -/
def with_name (b : ListenerBuilder) (name : String) : ListenerBuilder :=
  { b with name := some name }

/-- `ListenerBuilder::synchronize`: sets `concurrent = false`. -/
def synchronize (b : ListenerBuilder) : ListenerBuilder :=
  { b with concurrent := false }

/-- `ListenerBuilder::concurrent` (the configurator method, renamed to avoid
clashing with the field of the same name): its body is `self.concurrent =
false; self` — identical to `synchronize`. -/
def concurrentMode (b : ListenerBuilder) : ListenerBuilder :=
  { b with concurrent := false }

/-- `ListenerBuilder::set_priority`. -/
def set_priority (b : ListenerBuilder) (p : Priority) : ListenerBuilder :=
  { b with priority := p }

end ListenerBuilder

namespace ListenerGuard

/-- `ListenerGuard::closed`: `self.closed.load(Ordering::Acquire)` (named
`isClosed` here because the structure field already takes the name). -/
def isClosed (g : ListenerGuard) (s : SysState) : Bool :=
  s.readFlag g.closed

/-- `impl Drop for ListenerGuard`: `self.closed.swap(true, Ordering::Relaxed)`. -/
def drop (g : ListenerGuard) (s : SysState) : SysState :=
  s.setFlagTrue g.closed

end ListenerGuard

/-! Traces of shared-state operations.  Every operation of the embedded API
that writes the flag store is one of: an `intercept` on some event (writes
`true` to that event's flag), a guard drop (writes `true` to that listener's
closed flag), or an allocation of a fresh flag (`EventInner::new`,
`Listener::new`).  Reads (`is_intercepted`, `closed`, `name`) and the pure
builder methods do not touch the store. -/

/-- One store-writing operation of the embedded API. -/
inductive SysOp where
  | interceptEv (a : Nat)
  | guardDrop (a : Nat)
  | allocFlag
  deriving DecidableEq, Repr

/-- Effect of one operation on the flag store. -/
def SysOp.apply (s : SysState) : SysOp → SysState
  | .interceptEv a => s.setFlagTrue a
  | .guardDrop a => s.setFlagTrue a
  | .allocFlag => (s.alloc).1

/-- Effect of a sequence of operations, first to last. -/
def SysState.run (s : SysState) : List SysOp → SysState
  | [] => s
  | op :: ops => (op.apply s).run ops

/-- `GroupMessageEvent::group`: `&self.event.group`. -/
def GroupMessageEvent.group (e : GroupMessageEvent) : Group :=
  e.event.group

/-- `GroupMessageEvent::message`: `&self.event.message`. -/
def GroupMessageEvent.message (e : GroupMessageEvent) : GroupMessage :=
  e.event.message

/-! The ephemeral subscription (`GroupMessageEvent::next_event`,
`src/event/mod.rs` lines 133-174).  The bounded channel
`tokio::sync::mpsc::channel(5)` is modelled explicitly; `tokio::time` is
abstracted by giving the model the list of `GroupMessageEvent`s dispatched to
the temporary listener before the deadline. -/

/-- The sender/receiver state of the `tokio::sync::mpsc::channel(5)` pair:
buffered events, and whether the receiver has been dropped. -/
structure Chan where
  buf : List GroupMessageEvent
  closed : Bool
  deriving DecidableEq, Repr

/-- Outcome of one invocation of the temporary handler: a normal return with
the updated channel and the continuation boolean, a panic
(`unwrap_or_else(|_| unreachable!())` on a failed send), or an await on a full
channel (`tx.send(..).await` suspended until capacity frees up). -/
inductive HandlerStep where
  | ret (ch : Chan) (cont : Bool)
  | panicked
  | blocked
  deriving DecidableEq, Repr

/-- The closure registered by `next_event` via `Listener::listening_on`
(`src/event/mod.rs` lines 146-159), with its captures `group_id` and `sender`:
events from another group or another sender return `true` untouched; a
matching event is sent into the channel and the handler returns `false`.
`tx.send` on a closed channel (receiver dropped) returns `Err`, which the
closure unwraps with `unreachable!()` — a panic; a send on a full open
channel awaits. -/
def nextEventHandler (group_id sender : Int) (e : GroupMessageEvent)
    (ch : Chan) : HandlerStep :=
  if group_id ≠ e.group.id then .ret ch true
  else if sender ≠ e.message.from_uin then .ret ch true
  else if ch.closed then .panicked
  else if ch.buf.length < 5 then .ret { ch with buf := ch.buf ++ [e] } false
  else .blocked

/-- The events the temporary handler forwards into the channel: exactly the
incoming events whose group id and sender uin match the captured values. -/
def forwarded (group_id sender : Int) (incoming : List GroupMessageEvent) :
    List GroupMessageEvent :=
  incoming.filter fun e => group_id == e.group.id && sender == e.message.from_uin

/-- The receive loop of `next_event`
(`while let Some(e) = rx.recv().await { if !filter(&e) { continue; } ... }`):
the first received event satisfying `filter`, skipping the rest. -/
def firstMatch (filter : GroupMessageEvent → Bool) :
    List GroupMessageEvent → Option GroupMessageEvent
  | [] => none
  | e :: es => if filter e then some e else firstMatch filter es

/-- `tokio::time::error::Elapsed`: the distinct timeout error. -/
inductive Elapsed where
  | elapsed
  deriving DecidableEq, Repr

/-- `GroupMessageEvent::next_event`.  `incoming` is the sequence of
`GroupMessageEvent`s dispatched to the temporary listener before the timeout
deadline.  The registered listener is `Listener::listening_on(closure).start()`;
the closure's channel effects are modelled by `forwarded` (see
`nextEventHandler_sends_iff_forwarded`), and it performs no flag-store writes,
so it is embedded as the store-identity handler.  If some forwarded event
satisfies `filter`, the guard is dropped and that event returned; otherwise the
receive loop is still pending at the deadline, `tokio::time::timeout` yields
`Err(Elapsed)`, and dropping the timed-out future drops the guard. -/
def GroupMessageEvent.next_event (self : GroupMessageEvent)
    (filter : GroupMessageEvent → Bool) (incoming : List GroupMessageEvent)
    (s : SysState) : Except Elapsed GroupMessageEvent × SysState :=
  let p := Listener.new (fun _ st => (st, true)) s
  let g := ((p.1).start).2
  match firstMatch filter (forwarded self.group.id self.message.from_uin incoming) with
  | some e => (Except.ok e, g.drop p.2)
  | none => (Except.error .elapsed, g.drop p.2)

/-! The Priority Scheduler.  Its code (`service::listeners`, the global
worker) is not among the given sources — only its callers are
(`get_global_worker().schedule(listener)` in `ListenerBuilder::start`) — so
its dispatch loop is modelled from the spec. -/

/-- Modelled from the spec: one tier of the missing `service::listeners`
worker — "within a tier, invoke every non-closed listener's handler with the
event clone; before invoking, re-check `closed()`; if closed, skip".  Returns
the updated store and the names of the listeners invoked, in registry order. -/
def runTier (e : Event) (ls : List Listener) (p : Priority) (s : SysState) :
    SysState × List String :=
  (ls.filter (fun l => l.priority == p)).foldl
    (fun acc l =>
      if acc.1.readFlag l.closed then acc
      else
        let r := l.handler e acc.1
        (r.1, acc.2 ++ [l.name]))
    (s, [])

/-- Modelled from the spec: the missing worker's tier loop — "iterate tiers
from Top to Base … before advancing to the next tier, the Scheduler checks
`event.is_intercepted()`; if true, dispatch to subsequent tiers is skipped
entirely", independent of any handler's continuation return value. -/
def dispatchFrom (e : Event) (ls : List Listener) :
    SysState → List Priority → SysState × List String
  | s, [] => (s, [])
  | s, p :: ps =>
    let r1 := runTier e ls p s
    if e.is_intercepted r1.1 then r1
    else
      let r2 := dispatchFrom e ls r1.1 ps
      (r2.1, r1.2 ++ r2.2)

/-- The five tiers in dispatch order, Top first, Base last. -/
def tierOrder : List Priority := [.Top, .High, .Middle, .Low, .Base]

/-- Modelled from the spec: a full dispatch pass of one event over the
registry. -/
def dispatch (e : Event) (ls : List Listener) (s : SysState) :
    SysState × List String :=
  dispatchFrom e ls s tierOrder

/-! Store lemmas: a cell that holds `true` stays `true` under every
store-writing operation of the API (writes only ever store `true`, and
allocations touch only fresh cells). -/

/-- Setting a cell to `true` makes it read `true` (for an allocated cell). -/
theorem getD_set_self_true (l : List Bool) (a : Nat) (h : a < l.length) :
    (l.set a true).getD a false = true := by
  induction l generalizing a with
  | nil => simp at h
  | cons x xs ih =>
    cases a with
    | zero => simp
    | succ a =>
      simp only [List.set, List.getD_cons_succ]
      exact ih a (by simpa using h)

/-- Setting any cell to `true` never turns a `true` cell `false`. -/
theorem getD_set_true_mono (l : List Bool) (a b : Nat)
    (h : l.getD b false = true) : (l.set a true).getD b false = true := by
  induction l generalizing a b with
  | nil => simp at h
  | cons x xs ih =>
    cases a with
    | zero =>
      cases b with
      | zero => simp
      | succ b => simpa using h
    | succ a =>
      cases b with
      | zero => simpa using h
      | succ b =>
        simp only [List.set, List.getD_cons_succ] at h ⊢
        exact ih a b h

/-- Allocating fresh cells never turns a `true` cell `false`. -/
theorem getD_append_true_mono (l l' : List Bool) (b : Nat)
    (h : l.getD b false = true) : (l ++ l').getD b false = true := by
  have hb : b < l.length := by
    by_contra hn
    rw [List.getD_eq_default _ _ (Nat.le_of_not_lt hn)] at h
    exact absurd h (by simp)
  rw [List.getD_append _ _ _ _ hb]
  exact h

/-- A freshly allocated cell reads `false`. -/
theorem getD_append_fresh (l : List Bool) :
    (l ++ [false]).getD l.length false = false := by
  rw [List.getD_append_right _ _ _ _ (Nat.le_refl _)]
  simp

/-- A flag that reads `true` still reads `true` after any one API operation. -/
theorem readFlag_apply_true (s : SysState) (b : Nat) (op : SysOp)
    (h : s.readFlag b = true) : (op.apply s).readFlag b = true := by
  cases op with
  | interceptEv a => exact getD_set_true_mono s.flags a b h
  | guardDrop a => exact getD_set_true_mono s.flags a b h
  | allocFlag => exact getD_append_true_mono s.flags [false] b h

/-- A flag that reads `true` still reads `true` after any sequence of API
operations: there is no reset path in the embedded API. -/
theorem readFlag_run_true (s : SysState) (b : Nat) (ops : List SysOp)
    (h : s.readFlag b = true) : (s.run ops).readFlag b = true := by
  induction ops generalizing s with
  | nil => exact h
  | cons op ops ih => exact ih _ (readFlag_apply_true s b op h)

/-- C1: once `intercept()` has been called on an event, `is_intercepted()`
returns `true` and keeps returning `true` after any sequence of further API
operations (there is no reset path); a clone shares the flag cell itself, so
it observes the same flag value as the original in every state. -/
theorem c1_intercept_permanent {T : Type} (e : EventInner T) (s : SysState)
    (h : e.intercepted < s.flags.length) :
    e.is_intercepted (e.intercept s) = true
    ∧ (∀ ops : List SysOp, e.is_intercepted ((e.intercept s).run ops) = true)
    ∧ e.clone.intercepted = e.intercepted
    ∧ (∀ s' : SysState, e.clone.is_intercepted s' = e.is_intercepted s') := by
  have h1 : e.is_intercepted (e.intercept s) = true :=
    getD_set_self_true s.flags e.intercepted h
  exact ⟨h1, fun ops => readFlag_run_true _ _ ops h1, rfl, fun _ => rfl⟩

/-- Witness for C1 at a concrete event and store. -/
theorem c1_intercept_permanent_witness :
    (⟨0, ⟨0⟩⟩ : EventInner QEvent).intercepted
        < (SysState.mk [false]).flags.length
    ∧ ((⟨0, ⟨0⟩⟩ : EventInner QEvent).is_intercepted
          ((⟨0, ⟨0⟩⟩ : EventInner QEvent).intercept ⟨[false]⟩) = true
       ∧ (∀ ops : List SysOp,
            (⟨0, ⟨0⟩⟩ : EventInner QEvent).is_intercepted
              (((⟨0, ⟨0⟩⟩ : EventInner QEvent).intercept ⟨[false]⟩).run ops)
              = true)
       ∧ (⟨0, ⟨0⟩⟩ : EventInner QEvent).clone.intercepted
           = (⟨0, ⟨0⟩⟩ : EventInner QEvent).intercepted
       ∧ (∀ s' : SysState,
            (⟨0, ⟨0⟩⟩ : EventInner QEvent).clone.is_intercepted s'
              = (⟨0, ⟨0⟩⟩ : EventInner QEvent).is_intercepted s')) :=
  ⟨by decide,
   c1_intercept_permanent (⟨0, ⟨0⟩⟩ : EventInner QEvent) ⟨[false]⟩ (by decide)⟩

/-- C4: dropping a listener's guard stores `true` into the shared closed flag,
so `closed()` reads `true` immediately after the drop and keeps reading `true`
after any further API operations (no reset path); a freshly started listener
shares its closed flag with its guard, and that flag initially reads `false`. -/
theorem c4_guard_drop_closes (g : ListenerGuard) (s : SysState)
    (handler : Handler) (h : g.closed < s.flags.length) :
    g.isClosed (g.drop s) = true
    ∧ (∀ ops : List SysOp, g.isClosed ((g.drop s).run ops) = true)
    ∧ ((Listener.new handler s).1.start).1.closed
        = ((Listener.new handler s).1.start).2.closed
    ∧ ((Listener.new handler s).1.start).2.isClosed (Listener.new handler s).2
        = false := by
  have h1 : g.isClosed (g.drop s) = true :=
    getD_set_self_true s.flags g.closed h
  exact ⟨h1, fun ops => readFlag_run_true _ _ ops h1, rfl,
    getD_append_fresh s.flags⟩

/-- Witness for C4 at a concrete guard, store and handler. -/
theorem c4_guard_drop_closes_witness :
    (ListenerGuard.mk "g" 0).closed < (SysState.mk [false]).flags.length
    ∧ ((ListenerGuard.mk "g" 0).isClosed
          ((ListenerGuard.mk "g" 0).drop ⟨[false]⟩) = true
       ∧ (∀ ops : List SysOp,
            (ListenerGuard.mk "g" 0).isClosed
              (((ListenerGuard.mk "g" 0).drop ⟨[false]⟩).run ops) = true)
       ∧ ((Listener.new (fun _ st => (st, true)) ⟨[false]⟩).1.start).1.closed
           = ((Listener.new (fun _ st => (st, true)) ⟨[false]⟩).1.start).2.closed
       ∧ ((Listener.new (fun _ st => (st, true)) ⟨[false]⟩).1.start).2.isClosed
           (Listener.new (fun _ st => (st, true)) ⟨[false]⟩).2 = false) :=
  ⟨by decide,
   c4_guard_drop_closes ⟨"g", 0⟩ ⟨[false]⟩ (fun _ st => (st, true)) (by decide)⟩

/-- C3 (the code at the failing input): the builder's `concurrent()`
configurator sets `concurrent = false` — its body is identical to
`synchronize()` — so the started listener carries an internal mutex
(`concurrent_mutex = Some(..)`), the opposite of the no-lock concurrent mode
the claim describes. -/
theorem c3_concurrent_configurator_locks (handler : Handler) (s : SysState) :
    (((Listener.new handler s).1.concurrentMode).start).1.concurrent_mutex
      = some () := rfl

/-- C10: a fresh builder defaults to no name, `concurrent = true`, priority
`Middle`, and a closed flag reading `false`; starting it unnamed names both the
listener and the guard `"Unnamed-Listener"` and installs no mutex, while
`synchronize()` before `start()` installs one. -/
theorem c10_builder_defaults (handler : Handler) (s : SysState) :
    ((Listener.new handler s).1).name = none
    ∧ ((Listener.new handler s).1).concurrent = true
    ∧ ((Listener.new handler s).1).priority = .Middle
    ∧ (Listener.new handler s).2.readFlag ((Listener.new handler s).1).closed
        = false
    ∧ (((Listener.new handler s).1).start).1.name = "Unnamed-Listener"
    ∧ (((Listener.new handler s).1).start).2.name = "Unnamed-Listener"
    ∧ (((Listener.new handler s).1).start).1.concurrent_mutex = none
    ∧ (((Listener.new handler s).1).synchronize.start).1.concurrent_mutex
        = some () :=
  ⟨rfl, rfl, rfl, getD_append_fresh s.flags, rfl, rfl, rfl, rfl⟩

/-- C8: the erased handler built by `listening_on::<E>` returns the
continuation `true` without running the user handler when the event is not
convertible to `E`, and returns exactly the user handler's own result when it
is. -/
theorem c8_typed_listener_conversion {E : Type} (fromEv : Event → Option E)
    (handler : E → SysState → SysState × Bool) (s : SysState) (ev : Event)
    (st : SysState) :
    (fromEv ev = none →
      ((Listener.listening_on fromEv handler s).1).handler ev st = (st, true))
    ∧ (∀ x : E, fromEv ev = some x →
      ((Listener.listening_on fromEv handler s).1).handler ev st
        = handler x st) := by
  constructor
  · intro h
    simp [Listener.listening_on, Listener.new, h]
  · intro x h
    simp [Listener.listening_on, Listener.new, h]

/-- Witness for C8: the `GroupMessageEvent`-typed listener skips a friend
message (conversion yields `none`) and forwards a group message to the user
handler. -/
theorem c8_typed_listener_conversion_witness :
    (GroupMessageEvent.from_event
        (Event.FriendMessageEvent ⟨1, ⟨⟨7⟩⟩⟩) = none
      → ((Listener.listening_on GroupMessageEvent.from_event
            (fun _ st => (st, false)) ⟨[]⟩).1).handler
          (Event.FriendMessageEvent ⟨1, ⟨⟨7⟩⟩⟩) ⟨[true]⟩ = (⟨[true]⟩, true))
    ∧ (GroupMessageEvent.from_event
          (Event.GroupMessageEvent ⟨0, ⟨⟨1, ⟨9⟩⟩, ⟨2⟩⟩⟩)
        = some (⟨0, ⟨⟨1, ⟨9⟩⟩, ⟨2⟩⟩⟩ : GroupMessageEvent)
      → ((Listener.listening_on GroupMessageEvent.from_event
            (fun _ st => (st, false)) ⟨[]⟩).1).handler
          (Event.GroupMessageEvent ⟨0, ⟨⟨1, ⟨9⟩⟩, ⟨2⟩⟩⟩) ⟨[true]⟩
          = (⟨[true]⟩, false)) :=
  ⟨fun h =>
    (c8_typed_listener_conversion GroupMessageEvent.from_event
      (fun _ st => (st, false)) ⟨[]⟩
      (Event.FriendMessageEvent ⟨1, ⟨⟨7⟩⟩⟩) ⟨[true]⟩).1 h,
   fun h =>
    (c8_typed_listener_conversion GroupMessageEvent.from_event
      (fun _ st => (st, false)) ⟨[]⟩
      (Event.GroupMessageEvent ⟨0, ⟨⟨1, ⟨9⟩⟩, ⟨2⟩⟩⟩) ⟨[true]⟩).2 _ h⟩

/-- C9: `into_ffi` gives two events the same discriminant exactly when they
are built from the same variant — the discriminants `0`, `1`, `2`, `255` are
pairwise distinct across variants. -/
theorem c9_ffi_discriminant_distinct (e1 e2 : Event) :
    (e1.into_ffi).t = (e2.into_ffi).t ↔ Event.sameVariant e1 e2 = true := by
  cases e1 <;> cases e2 <;> simp [Event.into_ffi, Event.sameVariant]

/-- C5: one invocation of the temporary handler registered by `next_event`:
an event from another group, or from another sender, returns `true` with the
channel untouched; a matching event is sent into the channel (when the channel
can accept it) and the handler returns `false`. -/
theorem c5_next_event_handler (group_id sender : Int) (e : GroupMessageEvent)
    (ch : Chan) :
    (group_id ≠ e.group.id →
      nextEventHandler group_id sender e ch = .ret ch true)
    ∧ (group_id = e.group.id → sender ≠ e.message.from_uin →
      nextEventHandler group_id sender e ch = .ret ch true)
    ∧ (group_id = e.group.id → sender = e.message.from_uin →
      ch.closed = false → ch.buf.length < 5 →
      nextEventHandler group_id sender e ch
        = .ret { ch with buf := ch.buf ++ [e] } false) := by
  refine ⟨fun h => ?_, fun h1 h2 => ?_, fun h1 h2 h3 h4 => ?_⟩ <;>
    simp [nextEventHandler, *]

/-- Witness for C5: the three branches at concrete events and an empty open
channel (captured group id `1`, sender `2`). -/
theorem c5_next_event_handler_witness :
    ((1 : Int) ≠ (GroupMessageEvent.group ⟨0, ⟨⟨9, ⟨0⟩⟩, ⟨2⟩⟩⟩).id
      → nextEventHandler 1 2 ⟨0, ⟨⟨9, ⟨0⟩⟩, ⟨2⟩⟩⟩ ⟨[], false⟩
          = .ret ⟨[], false⟩ true)
    ∧ ((1 : Int) = (GroupMessageEvent.group ⟨0, ⟨⟨1, ⟨0⟩⟩, ⟨7⟩⟩⟩).id
      → (2 : Int) ≠ (GroupMessageEvent.message ⟨0, ⟨⟨1, ⟨0⟩⟩, ⟨7⟩⟩⟩).from_uin
      → nextEventHandler 1 2 ⟨0, ⟨⟨1, ⟨0⟩⟩, ⟨7⟩⟩⟩ ⟨[], false⟩
          = .ret ⟨[], false⟩ true)
    ∧ ((1 : Int) = (GroupMessageEvent.group ⟨0, ⟨⟨1, ⟨0⟩⟩, ⟨2⟩⟩⟩).id
      → (2 : Int) = (GroupMessageEvent.message ⟨0, ⟨⟨1, ⟨0⟩⟩, ⟨2⟩⟩⟩).from_uin
      → (Chan.mk [] false).closed = false
      → (Chan.mk [] false).buf.length < 5
      → nextEventHandler 1 2 ⟨0, ⟨⟨1, ⟨0⟩⟩, ⟨2⟩⟩⟩ ⟨[], false⟩
          = .ret ⟨[⟨0, ⟨⟨1, ⟨0⟩⟩, ⟨2⟩⟩⟩], false⟩ false) :=
  ⟨fun h => (c5_next_event_handler 1 2 ⟨0, ⟨⟨9, ⟨0⟩⟩, ⟨2⟩⟩⟩ ⟨[], false⟩).1 h,
   fun h1 h2 =>
    (c5_next_event_handler 1 2 ⟨0, ⟨⟨1, ⟨0⟩⟩, ⟨7⟩⟩⟩ ⟨[], false⟩).2.1 h1 h2,
   fun h1 h2 h3 h4 =>
    (c5_next_event_handler 1 2 ⟨0, ⟨⟨1, ⟨0⟩⟩, ⟨2⟩⟩⟩ ⟨[], false⟩).2.2 h1 h2 h3 h4⟩

/-- C7 (the code at the failing input): when the channel's receiver has been
dropped — a second matching event reaching the not-yet-evicted temporary
listener after `next_event` returned — the send fails and the handler hits
`unwrap_or_else(|_| unreachable!())`: it panics instead of containing the
failure. -/
theorem c7_send_failure_panics :
    nextEventHandler 1 2 (⟨0, ⟨⟨1, ⟨0⟩⟩, ⟨2⟩⟩⟩ : GroupMessageEvent)
      ⟨[], true⟩ = .panicked := by decide

/-- The handler's send condition coincides with the `forwarded` predicate: on
an open channel with room, an invocation ends in a successful send returning
`false` exactly for the events `forwarded` keeps. -/
theorem nextEventHandler_sends_iff_forwarded (group_id sender : Int)
    (e : GroupMessageEvent) (ch : Chan) (h1 : ch.closed = false)
    (h2 : ch.buf.length < 5) :
    nextEventHandler group_id sender e ch
        = .ret { ch with buf := ch.buf ++ [e] } false
      ↔ (group_id == e.group.id && sender == e.message.from_uin) = true := by
  by_cases hg : group_id = e.group.id
  · by_cases hs : sender = e.message.from_uin
    · simp [nextEventHandler, hg, hs, h1, h2]
    · simp [nextEventHandler, hg, hs]
  · simp [nextEventHandler, hg]

/-- The receive loop resolves with the head of any decomposition into a
prefix of non-satisfying events followed by a satisfying one. -/
theorem firstMatch_of_split (f : GroupMessageEvent → Bool)
    (es1 es2 : List GroupMessageEvent) (e : GroupMessageEvent)
    (h1 : ∀ x ∈ es1, f x = false) (h2 : f e = true) :
    firstMatch f (es1 ++ e :: es2) = some e := by
  induction es1 with
  | nil => simp [firstMatch, h2]
  | cons x xs ih =>
    have hx : f x = false := h1 x (by simp)
    simp only [List.cons_append, firstMatch, hx]
    exact ih fun y hy => h1 y (by simp [hy])

/-- The receive loop never resolves when no received event satisfies the
filter. -/
theorem firstMatch_of_none (f : GroupMessageEvent → Bool)
    (l : List GroupMessageEvent) (h : ∀ x ∈ l, f x = false) :
    firstMatch f l = none := by
  induction l with
  | nil => rfl
  | cons x xs ih =>
    have hx : f x = false := h x (by simp)
    simp only [firstMatch, hx]
    exact ih fun y hy => h y (by simp [hy])

/-- C6: `next_event` resolves with the first forwarded matching-subject event
that satisfies the caller's filter (forwarded events failing the filter are
skipped); when no forwarded event satisfies the filter before the deadline it
returns the distinct timeout error `Elapsed`; and in either case the
temporary listener's guard has been dropped: its closed flag (the cell
allocated at address `s.flags.length`) reads `true` in the returned state. -/
theorem c6_next_event_resolution (self : GroupMessageEvent)
    (filter : GroupMessageEvent → Bool) (incoming : List GroupMessageEvent)
    (s : SysState) :
    (∀ (es1 es2 : List GroupMessageEvent) (e : GroupMessageEvent),
      forwarded self.group.id self.message.from_uin incoming = es1 ++ e :: es2 →
      (∀ x ∈ es1, filter x = false) → filter e = true →
      (self.next_event filter incoming s).1 = Except.ok e)
    ∧ ((∀ x ∈ forwarded self.group.id self.message.from_uin incoming,
          filter x = false) →
        (self.next_event filter incoming s).1 = Except.error Elapsed.elapsed)
    ∧ ((self.next_event filter incoming s).2).readFlag s.flags.length
        = true := by
  refine ⟨?_, ?_, ?_⟩
  · intro es1 es2 e hsplit hskip hsat
    have hfm : firstMatch filter
        (forwarded self.group.id self.message.from_uin incoming) = some e := by
      rw [hsplit]; exact firstMatch_of_split filter es1 es2 e hskip hsat
    simp [GroupMessageEvent.next_event, hfm]
  · intro hnone
    have hfm : firstMatch filter
        (forwarded self.group.id self.message.from_uin incoming) = none :=
      firstMatch_of_none filter _ hnone
    simp [GroupMessageEvent.next_event, hfm]
  · have hset : ∀ st : SysState,
        st = ((Listener.new (fun _ st => (st, true)) s).1.start).2.drop
              (Listener.new (fun _ st => (st, true)) s).2 →
        st.readFlag s.flags.length = true := by
      intro st hst
      subst hst
      exact getD_set_self_true (s.flags ++ [false]) s.flags.length (by simp)
    cases hfm : firstMatch filter
        (forwarded self.group.id self.message.from_uin incoming) with
    | some e => simpa [GroupMessageEvent.next_event, hfm] using hset _ rfl
    | none => simpa [GroupMessageEvent.next_event, hfm] using hset _ rfl

/-- Concrete `next_event` scenario: the originating event (group `1`,
sender `2`). -/
def demoSelf : GroupMessageEvent := ⟨0, ⟨⟨1, ⟨0⟩⟩, ⟨2⟩⟩⟩

/-- An event from an unrelated group (id `9`). -/
def demoWrong : GroupMessageEvent := ⟨0, ⟨⟨9, ⟨0⟩⟩, ⟨2⟩⟩⟩

/-- First matching-subject event (its group's bot id is `5`). -/
def demoM1 : GroupMessageEvent := ⟨0, ⟨⟨1, ⟨5⟩⟩, ⟨2⟩⟩⟩

/-- Second matching-subject event (its group's bot id is `6`). -/
def demoM2 : GroupMessageEvent := ⟨0, ⟨⟨1, ⟨6⟩⟩, ⟨2⟩⟩⟩

/-- The three events dispatched before the deadline. -/
def demoIncoming : List GroupMessageEvent := [demoWrong, demoM1, demoM2]

/-- A caller filter that accepts only `demoM2`. -/
def demoFilter (e : GroupMessageEvent) : Bool := e.group.bot.id == 6

/-- Witness for C6: among a wrong-group event and two matching ones, the
filter accepts only the second matching event; `next_event` resolves with it
and the temporary guard's flag reads `true` afterwards. -/
theorem c6_next_event_resolution_witness :
    forwarded demoSelf.group.id demoSelf.message.from_uin demoIncoming
        = [demoM1] ++ demoM2 :: []
    ∧ (∀ x ∈ [demoM1], demoFilter x = false)
    ∧ demoFilter demoM2 = true
    ∧ (demoSelf.next_event demoFilter demoIncoming ⟨[false]⟩).1
        = Except.ok demoM2
    ∧ ((demoSelf.next_event demoFilter demoIncoming ⟨[false]⟩).2).readFlag
        (SysState.mk [false]).flags.length = true :=
  ⟨by decide, by decide, by decide,
   (c6_next_event_resolution demoSelf demoFilter demoIncoming ⟨[false]⟩).1
     [demoM1] [] demoM2 (by decide) (by decide) (by decide),
   (c6_next_event_resolution demoSelf demoFilter demoIncoming ⟨[false]⟩).2.2⟩

/-- One unfolding step of the tier loop. -/
theorem dispatchFrom_cons (e : Event) (ls : List Listener) (s : SysState)
    (p : Priority) (ps : List Priority) :
    dispatchFrom e ls s (p :: ps)
      = if e.is_intercepted (runTier e ls p s).1 then runTier e ls p s
        else ((dispatchFrom e ls (runTier e ls p s).1 ps).1,
              (runTier e ls p s).2
                ++ (dispatchFrom e ls (runTier e ls p s).1 ps).2) := rfl

/-- C2: if the event is observed intercepted after the Scheduler finishes a
non-empty prefix `px` of the tier order, then dispatching the remaining tiers
`ps` changes nothing — neither the store nor the invocation log — i.e. no
listener in any lower tier is ever invoked for that event. -/
theorem c2_interception_short_circuits (e : Event) (ls : List Listener) :
    ∀ (px : List Priority) (s : SysState) (ps : List Priority),
      px ≠ [] →
      e.is_intercepted (dispatchFrom e ls s px).1 = true →
      dispatchFrom e ls s (px ++ ps) = dispatchFrom e ls s px := by
  intro px
  induction px with
  | nil => intro s ps h _; exact absurd rfl h
  | cons p px ih =>
    intro s ps _ hint
    rw [List.cons_append, dispatchFrom_cons, dispatchFrom_cons e ls s p px]
    cases hI : e.is_intercepted (runTier e ls p s).1 with
    | true => simp [hI]
    | false =>
      simp only [hI, Bool.false_eq_true, if_false]
      have hpx : px ≠ [] := by
        intro hnil
        subst hnil
        rw [dispatchFrom_cons] at hint
        simp only [hI, Bool.false_eq_true, if_false] at hint
        simp [dispatchFrom, hI] at hint
      have hint' : e.is_intercepted
          (dispatchFrom e ls (runTier e ls p s).1 px).1 = true := by
        rw [dispatchFrom_cons] at hint
        simpa [hI] using hint
      rw [ih (runTier e ls p s).1 ps hpx hint']

/-- Concrete dispatch scenario: an event whose flag is cell `0`. -/
def demoDispatchEvent : Event := .Unknown ⟨0, ⟨0⟩⟩

/-- Store for the dispatch scenario: the event flag and five open closed
flags. -/
def demoDispatchState : SysState :=
  ⟨[false, false, false, false, false, false]⟩

/-- A handler that intercepts the event and continues. -/
def interceptingHandler : Handler := fun ev st => (ev.intercept st, true)

/-- A handler that does nothing and continues. -/
def passiveHandler : Handler := fun _ st => (st, true)

/-- One listener per tier, named by its tier; only the Top-tier one
intercepts. -/
def demoRegistry : List Listener :=
  [⟨"Top", none, interceptingHandler, 1, .Top⟩,
   ⟨"High", none, passiveHandler, 2, .High⟩,
   ⟨"Middle", none, passiveHandler, 3, .Middle⟩,
   ⟨"Low", none, passiveHandler, 4, .Low⟩,
   ⟨"Base", none, passiveHandler, 5, .Base⟩]

/-- Witness for C2: with one listener per tier and only the Top one
intercepting, the event is intercepted after the Top tier, the four lower
tiers add nothing, and the full dispatch log is exactly `["Top"]`. -/
theorem c2_interception_short_circuits_witness :
    ([Priority.Top] ≠ ([] : List Priority))
    ∧ demoDispatchEvent.is_intercepted
        (dispatchFrom demoDispatchEvent demoRegistry demoDispatchState
          [Priority.Top]).1 = true
    ∧ dispatchFrom demoDispatchEvent demoRegistry demoDispatchState
        ([Priority.Top] ++ [Priority.High, Priority.Middle, Priority.Low,
          Priority.Base])
        = dispatchFrom demoDispatchEvent demoRegistry demoDispatchState
            [Priority.Top]
    ∧ (dispatch demoDispatchEvent demoRegistry demoDispatchState).2
        = ["Top"] :=
  ⟨by decide, by decide,
   c2_interception_short_circuits demoDispatchEvent demoRegistry
     [Priority.Top] demoDispatchState
     [Priority.High, Priority.Middle, Priority.Low, Priority.Base]
     (by decide) (by decide),
   by decide⟩

end Atri
